import Mathlib

/-!
# Verification of the Extranet browser-side UI scripts

Shallow embedding of the JavaScript sources of the Extranet site
(`panier.js`, `commander.js`, `countdown.js`, `date-calcul.js`,
`liste_limite.js`, `client-search.js`) together with proofs of the
specification's testable properties.

Conventions of the embedding:
* Several source files contain two revisions separated by a document
  marker; JavaScript function hoisting makes the later declaration the
  operative one, so the later revision of each file is the one embedded.
* The DOM is modelled by records holding exactly the pieces of page
  state the scripts read or write.  `Option` encodes presence/absence
  of an element, `String` encodes rendered text.
* `location.reload()` navigates away, so in run functions a reload
  stops further processing.
* Money amounts are modelled in integer cents; `Number.toFixed(2)` is
  rendered from cents.
* Timers (`setTimeout` / `setInterval`) are modelled by explicit
  deadlines in milliseconds and an explicit event order.
-/

namespace Extranet

/-! ## countdown.js -/

/-- State of one element carrying a `data-countdown` attribute, as used by
`updateCountdowns` in `countdown.js`. -/
structure CdState where
  /-- current value of the `data-countdown` attribute -/
  attr : Int
  /-- text of the `.countdown-time` span -/
  display : String
  /-- number of times `location.reload()` has been invoked -/
  reloads : Nat
  deriving Repr, DecidableEq

/-- Rendering `minutes + ':' + (secs < 10 ? '0' : '') + secs`. -/
def fmtCountdown (seconds : Int) : String :=
  let minutes := seconds / 60
  let secs := seconds % 60
  toString minutes ++ ":" ++ (if secs < 10 then "0" else "") ++ toString secs

/-- One invocation of `updateCountdowns` on a single tracked element
(`countdown.js`, lines 46-66): if the attribute is `≤ 0` the page is
reloaded, otherwise the remaining time is rendered and the attribute
decremented. -/
def updateCountdowns (s : CdState) : CdState :=
  if s.attr ≤ 0 then
    { s with reloads := s.reloads + 1 }
  else
    { s with display := fmtCountdown s.attr, attr := s.attr - 1 }

/-- The element as served: attribute set to `n`, nothing rendered yet. -/
def cdInit (n : Int) : CdState :=
  { attr := n, display := "", reloads := 0 }

/-- `k` one-second interval ticks (`setInterval(updateCountdowns, 1000)`).
A reload navigates away from the page, which kills the interval, so
ticking stops once a reload has fired. -/
def runTicks : Nat → CdState → CdState
  | 0, s => s
  | k + 1, s => if s.reloads ≠ 0 then s else runTicks k (updateCountdowns s)

theorem runTicks_reloads (k : Nat) :
    ∀ s : CdState, s.reloads = 0 → 0 ≤ s.attr →
      (runTicks k s).reloads = if s.attr < (k : Int) then 1 else 0 := by
  induction k with
  | zero =>
    intro s hr ha
    rw [runTicks, if_neg (by omega)]
    exact hr
  | succ k ih =>
    intro s hr ha
    rw [runTicks, if_neg (by simp [hr])]
    by_cases h0 : s.attr ≤ 0
    · have hs : s.attr = 0 := le_antisymm h0 ha
      have hupd : updateCountdowns s = { s with reloads := s.reloads + 1 } := by
        simp [updateCountdowns, h0]
      rw [hupd]
      have : ∀ m (t : CdState), t.reloads ≠ 0 → (runTicks m t).reloads = t.reloads := by
        intro m
        cases m with
        | zero => intro t _; simp [runTicks]
        | succ m => intro t ht; simp [runTicks, ht]
      rw [this k _ (by simp [hr])]
      simp [hr, hs]
    · have hupd : updateCountdowns s
          = { s with display := fmtCountdown s.attr, attr := s.attr - 1 } := by
        simp [updateCountdowns, h0]
      rw [hupd]
      rw [ih _ (by simp [hr]) (by simp; omega)]
      dsimp only
      rw [Nat.cast_succ]
      split_ifs <;> omega

/-- C7: the countdown script is loaded with the element reading `n ≥ 1`
remaining seconds; `updateCountdowns` runs once immediately at load and
then once per one-second tick.  After `k` ticks the page has been
reloaded exactly once if `k ≥ n` and not at all if `k < n`: the reload
fires exactly on the first tick at which the remaining-seconds counter
has reached 0, and in particular for `n = 5` it fires exactly once,
after exactly 5 ticks and not before. -/
theorem countdown_reload_first_zero_tick (n : Int) (k : Nat) (h : 1 ≤ n) :
    (runTicks k (updateCountdowns (cdInit n))).reloads
      = if n ≤ (k : Int) then 1 else 0 := by
  have hupd : updateCountdowns (cdInit n)
      = { attr := n - 1, display := fmtCountdown n, reloads := 0 } := by
    simp [updateCountdowns, cdInit]
    omega
  rw [hupd]
  rw [runTicks_reloads k _ (by simp) (by simp; omega)]
  dsimp only
  split_ifs <;> omega

/-- Witness for C7 at the concrete input of the claim: with `remaining = 5`,
after 4 ticks no reload has fired and after 5 ticks exactly one has. -/
theorem countdown_reload_witness :
    (runTicks 4 (updateCountdowns (cdInit 5))).reloads = 0 ∧
      (runTicks 5 (updateCountdowns (cdInit 5))).reloads = 1 := by
  constructor
  · have h := countdown_reload_first_zero_tick 5 4 (by norm_num)
    simpa using h
  · have h := countdown_reload_first_zero_tick 5 5 (by norm_num)
    simpa using h

/-! ## client-search.js -/

/-- One entry of the client-search API response:
`{ clients: [{ nom: string, tiers: number }, ...] }`. -/
structure Client where
  nom : String
  tiers : Int
  deriving Repr, DecidableEq

/-- The pieces of the registration form touched by `initClientSearch`. -/
structure SearchState where
  /-- value of the hidden `#client` input -/
  hiddenValue : String
  /-- value of the visible `#client-search` input -/
  searchValue : String
  /-- result items currently rendered in `#search-results` -/
  results : List Client
  /-- client shown as a confirmation badge in `#selected-client` -/
  selectedBadge : Option Client
  deriving Repr, DecidableEq

/-- Rendering of a successful search response (`client-search.js`,
lines 163-193): the results list is replaced by one item per client. -/
def renderResults (clients : List Client) (s : SearchState) : SearchState :=
  { s with results := clients }

/-- The click handler attached to one result item (`client-search.js`,
lines 180-190): store the tier code in the hidden input (JavaScript
coerces the number to a string), show the name in the search input,
show the confirmation badge and clear the results list. -/
def selectClient (c : Client) (s : SearchState) : SearchState :=
  { s with
    hiddenValue := toString c.tiers
    searchValue := c.nom
    selectedBadge := some c
    results := [] }

/-- Clicking the `i`-th rendered result item. -/
def clickResult (i : Nat) (s : SearchState) : SearchState :=
  match s.results[i]? with
  | some c => selectClient c s
  | none => s

/-- C9: selecting any client search result commits its `(nom, tiers)`
pair into the host form — the hidden tier field receives the tier code,
the visible search field receives the name — and the results list is
cleared. -/
theorem client_selection_commits (clients : List Client) (s : SearchState)
    (i : Nat) (c : Client) (h : clients[i]? = some c) :
    (clickResult i (renderResults clients s)).hiddenValue = toString c.tiers ∧
      (clickResult i (renderResults clients s)).searchValue = c.nom ∧
      (clickResult i (renderResults clients s)).results = [] := by
  simp [clickResult, renderResults, h, selectClient]

/-- Witness for C9 at a concrete search result. -/
theorem client_selection_commits_witness :
    ([⟨"ACME", 42⟩] : List Client)[0]? = some ⟨"ACME", 42⟩ ∧
      (clickResult 0 (renderResults [⟨"ACME", 42⟩]
          ⟨"", "AC", [], none⟩)).hiddenValue = "42" ∧
      (clickResult 0 (renderResults [⟨"ACME", 42⟩]
          ⟨"", "AC", [], none⟩)).searchValue = "ACME" ∧
      (clickResult 0 (renderResults [⟨"ACME", 42⟩]
          ⟨"", "AC", [], none⟩)).results = [] := by
  refine ⟨by decide, ?_⟩
  have h := client_selection_commits [⟨"ACME", 42⟩] ⟨"", "AC", [], none⟩ 0
    ⟨"ACME", 42⟩ (by decide)
  exact ⟨h.1, h.2.1, h.2.2⟩

/-! ## date-calcul.js / commander.js date widget

A JavaScript `Date` produced by `new Date("YYYY-MM-DD")` is a UTC
midnight instant; `toISOString().split('T')[0]` reads it back in UTC.
The host timezone is modelled as UTC, so a `Date` is represented by its
civil UTC calendar date.  Epoch-day conversions follow the proleptic
Gregorian calendar (the calendar `Date` implements). -/

/-- A calendar date as carried by an `<input type="date">`. -/
structure CivilDate where
  year : Int
  month : Int
  day : Int
  deriving Repr, DecidableEq

/-- Gregorian leap-year test. -/
def isLeap (y : Int) : Bool :=
  y % 4 = 0 && (y % 100 != 0 || y % 400 = 0)

/-- Number of days in a month. -/
def daysInMonth (y m : Int) : Int :=
  if m = 2 then (if isLeap y then 29 else 28)
  else if m = 4 ∨ m = 6 ∨ m = 9 ∨ m = 11 then 30
  else 31

/-- A date an `<input type="date">` can hold. -/
def validDate (c : CivilDate) : Prop :=
  1 ≤ c.month ∧ c.month ≤ 12 ∧ 1 ≤ c.day ∧ c.day ≤ daysInMonth c.year c.month

instance (c : CivilDate) : Decidable (validDate c) := by
  unfold validDate; infer_instance

/-- Days since the Unix epoch of a civil date (standard civil-from-days
inverse; divisions truncate toward zero exactly as the guarded operands
make them agree with floors). -/
def civilToDays (y m d : Int) : Int :=
  let y2 := if m ≤ 2 then y - 1 else y
  let era := (if 0 ≤ y2 then y2 else y2 - 399) / 400
  let yoe := y2 - era * 400
  let mp := (m + 9) % 12
  let doy := (153 * mp + 2) / 5 + d - 1
  let doe := yoe * 365 + yoe / 4 - yoe / 100 + doy
  era * 146097 + doe - 719468

/-- Civil date of a days-since-epoch count. -/
def daysToCivil (z : Int) : CivilDate :=
  let z2 := z + 719468
  let era := (if 0 ≤ z2 then z2 else z2 - 146096) / 146097
  let doe := z2 - era * 146097
  let yoe := (doe - doe / 1460 + doe / 36524 - doe / 146096) / 365
  let y := yoe + era * 400
  let doy := doe - (365 * yoe + yoe / 4 - yoe / 100)
  let mp := (5 * doy + 2) / 153
  let d := doy - (153 * mp + 2) / 5 + 1
  let m := if mp < 10 then mp + 3 else mp - 9
  ⟨if m ≤ 2 then y + 1 else y, m, d⟩

/-- JavaScript `date.setDate(n)`: the day-of-month is set to `n`,
with out-of-range values rolling over into neighbouring months
(day 0 is the last day of the previous month, and so on). -/
def jsSetDate (c : CivilDate) (n : Int) : CivilDate :=
  daysToCivil (civilToDays c.year c.month 1 + (n - 1))

/-- `calculerDateDepart` (`date-calcul.js` lines 56-68 and
`commander.js` lines 211-219): if the delivery input holds a date, the
output input receives that date with `setDate(getDate() - 2)` applied;
otherwise the output input is cleared.  `none` models an empty field. -/
def calculerDateDepart (input : Option CivilDate) : Option CivilDate :=
  match input with
  | none => none
  | some c => some (jsSetDate c (c.day - 2))

/-- The specification's words: the output date is the input date minus
exactly 2 days, i.e. the civil date whose epoch-day number is two less. -/
def dateMinusTwoDays (c : CivilDate) : CivilDate :=
  daysToCivil (civilToDays c.year c.month c.day - 2)

theorem civilToDays_day_shift (y m d : Int) :
    civilToDays y m d = civilToDays y m 1 + (d - 1) := by
  simp only [civilToDays]
  ring

/-- C6: for every valid input date the widget writes the input date
minus exactly 2 days (for example 2024-03-10 yields 2024-03-08), and
the output field is cleared exactly when the input field is cleared. -/
theorem date_offset_minus_two_days (c : CivilDate) (h : validDate c) :
    calculerDateDepart (some c) = some (dateMinusTwoDays c) ∧
      (∀ i : Option CivilDate, calculerDateDepart i = none ↔ i = none) ∧
      calculerDateDepart (some ⟨2024, 3, 10⟩) = some ⟨2024, 3, 8⟩ := by
  refine ⟨?_, ?_, by decide⟩
  · simp only [calculerDateDepart, jsSetDate, dateMinusTwoDays,
      civilToDays_day_shift c.year c.month c.day]
    congr 1
    ring_nf
  · intro i
    cases i <;> simp [calculerDateDepart]

/-- Witness for C6 at the claim's example date. -/
theorem date_offset_minus_two_days_witness :
    validDate ⟨2024, 3, 10⟩ ∧
      calculerDateDepart (some ⟨2024, 3, 10⟩)
        = some (dateMinusTwoDays ⟨2024, 3, 10⟩) ∧
      dateMinusTwoDays ⟨2024, 3, 10⟩ = ⟨2024, 3, 8⟩ := by
  refine ⟨by decide, ?_, by decide⟩
  exact (date_offset_minus_two_days ⟨2024, 3, 10⟩ (by decide)).1

/-! ## liste_limite.js -/

/-- State of one container carrying `data-liste-limitee`: per child a
visibility flag (`true` = displayed, `false` = `display: none`), plus
the optional "Voir plus" control with its rendered label. -/
structure ListeState where
  visible : List Bool
  btn : Option String
  deriving Repr, DecidableEq

/-- `getLimite` (`liste_limite.js`, lines 55-60): visible-item cap by
viewport width; `none` models `Infinity`. -/
def getLimite (w : Nat) : Option Nat :=
  if w < 768 then some 20
  else if w < 1200 then some 60
  else none

/-- `i < limite` where `limite` may be `Infinity`. -/
def underLimit (lim : Option Nat) (i : Nat) : Bool :=
  match lim with
  | none => true
  | some l => decide (i < l)

/-- The `for` loop of `appliquerLimite`: item `i` is shown when
`i < limite` and hidden otherwise. -/
def applyLoop (lim : Option Nat) : Nat → List Bool → List Bool
  | _, [] => []
  | i, _ :: rest => underLimit lim i :: applyLoop lim (i + 1) rest

/-- Label of the "Voir plus" button for `n` hidden items. -/
def voirPlusLabel (n : Nat) : String :=
  "Voir plus (" ++ toString n ++ " restants)"

/-- `appliquerLimite` (`liste_limite.js`, lines 89-139) on one
container: recompute every child's visibility against the current
limit, count the hidden children, and create/update the "Voir plus"
control when some are hidden or remove it when none are. -/
def appliquerLimite (w : Nat) (s : ListeState) : ListeState :=
  let lim := getLimite w
  let items := applyLoop lim 0 s.visible
  let nbCaches := items.count false
  { visible := items
    btn := if nbCaches > 0 then some (voirPlusLabel nbCaches) else none }

/-- The click handler of the "Voir plus" button (`liste_limite.js`,
lines 124-129): show every item and remove the control. -/
def clickVoirPlus (s : ListeState) : ListeState :=
  { visible := s.visible.map fun _ => true, btn := none }

theorem applyLoop_getElem (lim : Option Nat) :
    ∀ (xs : List Bool) (i j : Nat),
      (applyLoop lim i xs)[j]? = xs[j]?.map fun _ => underLimit lim (i + j) := by
  intro xs
  induction xs with
  | nil => intro i j; simp [applyLoop]
  | cons x rest ih =>
    intro i j
    cases j with
    | zero => simp [applyLoop]
    | succ j =>
      simp only [applyLoop, List.getElem?_cons_succ, ih (i + 1) j]
      have : i + 1 + j = i + (j + 1) := by omega
      rw [this]

theorem applyLoop_count_false (l : Nat) :
    ∀ (xs : List Bool) (i : Nat),
      (applyLoop (some l) i xs).count false = xs.length - (l - i) := by
  intro xs
  induction xs with
  | nil => intro i; simp [applyLoop]
  | cons x rest ih =>
    intro i
    simp only [applyLoop, List.count_cons, ih (i + 1), List.length_cons]
    by_cases h : i < l
    · simp [underLimit, h]
      omega
    · simp [underLimit, h]
      omega

theorem applyLoop_none (xs : List Bool) : ∀ i, applyLoop none i xs = xs.map fun _ => true := by
  induction xs with
  | nil => intro i; simp [applyLoop]
  | cons x rest ih => intro i; simp [applyLoop, underLimit, ih]

theorem applyLoop_length (lim : Option Nat) :
    ∀ (xs : List Bool) (i : Nat), (applyLoop lim i xs).length = xs.length := by
  intro xs
  induction xs with
  | nil => intro i; simp [applyLoop]
  | cons x rest ih => intro i; simp [applyLoop, ih]

/-- C8: on a limited list of `N > 20` items, at viewport width 700px
exactly the first 20 items are visible (item `j` is displayed iff
`j < 20`) and the "Voir plus (N-20 restants)" control is present; at
viewport width 1300px every item is visible and no control is present;
clicking the control shows every item and removes the control. -/
theorem liste_limite_truncation (s : ListeState) (N : Nat)
    (hlen : s.visible.length = N) (hN : 20 < N) :
    (∀ j, j < N →
        (appliquerLimite 700 s).visible[j]? = some (decide (j < 20))) ∧
      (appliquerLimite 700 s).btn = some (voirPlusLabel (N - 20)) ∧
      (∀ j, j < N → (appliquerLimite 1300 s).visible[j]? = some true) ∧
      (appliquerLimite 1300 s).btn = none ∧
      (∀ j, j < N →
        (clickVoirPlus (appliquerLimite 700 s)).visible[j]? = some true) ∧
      (clickVoirPlus (appliquerLimite 700 s)).btn = none := by
  have h700 : getLimite 700 = some 20 := by decide
  have h1300 : getLimite 1300 = none := by decide
  refine ⟨?_, ?_, ?_, ?_, ?_, ?_⟩
  · intro j hj
    simp only [appliquerLimite, h700, applyLoop_getElem]
    have hjl : j < s.visible.length := by omega
    simp [List.getElem?_eq_getElem hjl, underLimit]
  · simp only [appliquerLimite, h700, applyLoop_count_false, hlen]
    have hpos : 0 < N - (20 - 0) := by omega
    simp only [Nat.sub_zero] at hpos ⊢
    rw [if_pos hpos]
  · intro j hj
    simp only [appliquerLimite, h1300, applyLoop_none]
    have hjl : j < s.visible.length := by omega
    simp [List.getElem?_eq_getElem, hjl]
  · simp [appliquerLimite, h1300, applyLoop_none, List.count_eq_zero]
  · intro j hj
    simp only [clickVoirPlus, appliquerLimite, h700]
    have hjl : j < (applyLoop (some 20) 0 s.visible).length := by
      rw [applyLoop_length, hlen]
      omega
    simp [List.getElem?_eq_getElem, hjl]
  · simp [clickVoirPlus]

/-- Witness for C8 on a concrete list of 21 items at widths 700 and 1300. -/
theorem liste_limite_truncation_witness :
    (List.replicate 21 true).length = 21 ∧
      (appliquerLimite 700 ⟨List.replicate 21 true, none⟩).visible[20]? = some false ∧
      (appliquerLimite 700 ⟨List.replicate 21 true, none⟩).visible[0]? = some true ∧
      (appliquerLimite 700 ⟨List.replicate 21 true, none⟩).btn
        = some (voirPlusLabel 1) ∧
      (appliquerLimite 1300 ⟨List.replicate 21 true, none⟩).btn = none ∧
      (clickVoirPlus (appliquerLimite 700 ⟨List.replicate 21 true, none⟩)).btn
        = none := by
  have h := liste_limite_truncation ⟨List.replicate 21 true, none⟩ 21
    (by decide) (by decide)
  refine ⟨by decide, ?_, ?_, h.2.1, h.2.2.2.1, h.2.2.2.2.2⟩
  · have := h.1 20 (by decide)
    simpa using this
  · have := h.1 0 (by decide)
    simpa using this

/-! ## showNotification (panier.js, lines 798-820)

The notification surface is the list of `.alert.position-fixed`
elements currently attached to `document.body`, in document order.
Each alert carries the `setTimeout` deadline (creation time + 3000 ms)
at which its auto-dismiss callback removes it. -/

namespace Notif

/-- One toast alert. -/
structure Alert where
  message : String
  kind : String
  /-- time (ms) at which the auto-dismiss `setTimeout` callback fires -/
  expiry : Nat
  deriving Repr, DecidableEq

/-- Events that touch the notification surface. -/
inductive Event where
  /-- `showNotification(message, type)` invoked at time `now` -/
  | showNotification (now : Nat) (message kind : String)
  /-- time advances to `now`: every due auto-dismiss callback has run -/
  | tick (now : Nat)
  /-- the user clicks the close button of the visible alert -/
  | dismiss
  deriving Repr, DecidableEq

/-- One step of the surface.  `showNotification` first removes the
alert found by `document.querySelector('.alert.position-fixed')` (the
first one in document order, if any), then appends the new alert and
schedules its removal 3000 ms later.  A due auto-dismiss callback
removes its alert; removing an already-removed alert is a no-op, which
the time-based filter reflects. -/
def step (s : List Alert) (e : Event) : List Alert :=
  match e with
  | .showNotification now message kind =>
      (match s with
        | [] => []
        | _ :: rest => rest) ++ [⟨message, kind, now + 3000⟩]
  | .tick now => s.filter fun a => decide (now < a.expiry)
  | .dismiss =>
      match s with
      | [] => []
      | _ :: rest => rest

theorem step_length_le (s : List Alert) (e : Event) (h : s.length ≤ 1) :
    (step s e).length ≤ 1 := by
  cases e with
  | showNotification now message kind =>
    cases s with
    | nil => simp [step]
    | cons a rest =>
      simp only [step, List.length_append, List.length_cons] at h ⊢
      simp at h
      simp [h]
  | tick now =>
    calc (step s (.tick now)).length ≤ s.length := List.length_filter_le _ _
      _ ≤ 1 := h
  | dismiss =>
    cases s with
    | nil => simp [step]
    | cons a rest => simp only [step]; simp at h; simp [h]

theorem foldl_step_length_le (evs : List Event) :
    ∀ s : List Alert, s.length ≤ 1 → (evs.foldl step s).length ≤ 1 := by
  induction evs with
  | nil => intro s h; simpa using h
  | cons e evs ih =>
    intro s h
    simpa using ih (step s e) (step_length_le s e h)

/-- C4: starting from the empty page, after any sequence of
notification events at most one alert is visible — in every
intermediate state, since showing a new notification first removes the
currently visible one — and immediately after
`showNotification(m, k)` at time `now` exactly the new alert is
visible, scheduled to be removed at `now + 3000`; once those 3 seconds
have elapsed the surface is empty again. -/
theorem notification_at_most_one_visible :
    (∀ evs : List Event, ∀ s ∈ List.scanl step [] evs, s.length ≤ 1) ∧
      (∀ (evs : List Event) (now : Nat) (m k : String),
        List.foldl step [] (evs ++ [.showNotification now m k]) = [⟨m, k, now + 3000⟩] ∧
          step (List.foldl step [] (evs ++ [.showNotification now m k]))
            (.tick (now + 3000)) = []) := by
  constructor
  · intro evs
    suffices h : ∀ (s : List Alert), s.length ≤ 1 →
        ∀ t ∈ List.scanl step s evs, t.length ≤ 1 by
      exact h [] (by simp)
    induction evs with
    | nil =>
      intro s hs t ht
      simp at ht
      simpa [ht] using hs
    | cons e evs ih =>
      intro s hs t ht
      rw [List.scanl_cons] at ht
      rcases List.mem_cons.mp ht with h1 | h2
      · simpa [h1] using hs
      · exact ih (step s e) (step_length_le s e hs) t h2
  · intro evs now m k
    rw [List.foldl_append]
    have hone : (List.foldl step [] evs).length ≤ 1 :=
      foldl_step_length_le evs [] (by simp)
    have hshow : List.foldl step (List.foldl step [] evs) [.showNotification now m k]
        = [⟨m, k, now + 3000⟩] := by
      cases hfold : List.foldl step [] evs with
      | nil => simp [step]
      | cons a rest =>
        rw [hfold] at hone
        simp at hone
        simp [step, hone]
    refine ⟨hshow, ?_⟩
    rw [hshow]
    simp [step]

/-- Witness for C4 at a concrete event sequence: one shown
notification, its removal 3000 ms later, and the at-most-one bound at
a concrete reachable state. -/
theorem notification_at_most_one_visible_witness :
    List.foldl step [] ([] ++ [Event.showNotification 0 "ok" "success"])
        = [⟨"ok", "success", 0 + 3000⟩] ∧
      step (List.foldl step [] ([] ++ [Event.showNotification 0 "ok" "success"]))
        (Event.tick (0 + 3000)) = [] ∧
      ([⟨"ok", "success", 3000⟩] : List Alert).length ≤ 1 := by
  have h := notification_at_most_one_visible
  refine ⟨(h.2 [] 0 "ok" "success").1, (h.2 [] 0 "ok" "success").2, ?_⟩
  exact h.1 [Event.showNotification 0 "ok" "success"] [⟨"ok", "success", 3000⟩]
    (by decide)

end Notif

/-! ## Cart page DOM (panier.js) -/

/-- `Number.toFixed(2)` rendering of an amount held in integer cents. -/
def pad2 (n : Int) : String :=
  if n < 10 then "0" ++ toString n else toString n

/-- `x.toFixed(2) + ' €'` for an amount of `cents` cents. -/
def fmtEuro (cents : Int) : String :=
  toString (cents / 100) ++ "." ++ pad2 (cents % 100) ++ " €"

/-- One line of the recap panel, as carried in the `lignes_panier`
field of a server response. -/
structure Ligne where
  reference : Nat
  nom : String
  quantite : Int
  /-- unit price in cents -/
  prix : Int
  /-- line total in cents -/
  total : Int
  deriving Repr, DecidableEq

/-- Rendered content of the `#recap-panier-content` container. -/
inductive RecapView where
  /-- the server-rendered markup present at page load -/
  | initial
  /-- the regenerated list markup for a non-empty line list -/
  | liste (lignes : List Ligne) (total : Int)
  /-- the "Panier vide" placeholder -/
  | vide
  deriving Repr, DecidableEq

/-- One `<tr>` of the cart table: its reference, the text of its
`.ligne-total` cell and the value of its `.quantite-input`
(`none` when the row has no quantity input). -/
structure Row where
  reference : Nat
  totalText : String
  qty : Option Int
  deriving Repr, DecidableEq

/-- The page state read and written by the cart scripts.  `Option`
fields are `none` when the corresponding element is absent. -/
structure Dom where
  /-- text of `#panier-badge`; `none` = badge not in the DOM -/
  badge : Option String
  /-- an `a[href*="panier"]` navigation anchor exists -/
  panierLink : Bool
  /-- the cart table rows -/
  rows : List Row
  /-- text of `.panier-total` -/
  panierTotal : Option String
  /-- text of the "Articles" counter of the recap card -/
  nbArticles : Option String
  /-- content of `#recap-panier-content`; `none` = container absent -/
  recap : Option RecapView
  /-- log of `showNotification(message, type)` calls, oldest first -/
  notifs : List (String × String)
  /-- `location.reload()` has been invoked -/
  reloaded : Bool
  deriving Repr, DecidableEq

/-- Appending a call to `showNotification` to the page's log. -/
def pushNotification (message kind : String) (dom : Dom) : Dom :=
  { dom with notifs := dom.notifs ++ [(message, kind)] }

/-- `updatePanierBadge` (`panier.js`, lines 589-611): update or remove
the existing badge, or create it on the cart navigation anchor when the
count is positive, the badge is absent and the anchor exists. -/
def updatePanierBadge (count : Int) (dom : Dom) : Dom :=
  match dom.badge with
  | some _ =>
      if count > 0 then { dom with badge := some (toString count) }
      else { dom with badge := none }
  | none =>
      if count > 0 then
        if dom.panierLink then { dom with badge := some (toString count) }
        else dom
      else dom

/-- `updatePanierTotal` (`panier.js`, lines 619-624). -/
def updatePanierTotal (total : Int) (dom : Dom) : Dom :=
  match dom.panierTotal with
  | some _ => { dom with panierTotal := some (fmtEuro total) }
  | none => dom

/-- `updateNombreArticles` (`panier.js`, lines 632-640). -/
def updateNombreArticles (count : Int) (dom : Dom) : Dom :=
  match dom.nbArticles with
  | some _ => { dom with nbArticles := some (toString count) }
  | none => dom

/-- `updateRecapPanier` (`panier.js`, lines 652-709): regenerate the
recap panel wholesale, or render the empty-cart placeholder. -/
def updateRecapPanier (lignes : List Ligne) (total : Int) (dom : Dom) : Dom :=
  match dom.recap with
  | none => dom
  | some _ =>
      if lignes.length > 0 then { dom with recap := some (.liste lignes total) }
      else { dom with recap := some .vide }

/-- Response to the quantity-change POST, as decoded by
`submitQuantiteForm`.  A transport failure (network error, non-2xx
error page, malformed body) rejects the promise chain and lands in the
`catch` handler. -/
inductive QResp where
  | fail
  | ok (success : Bool) (total_ligne : Option Int) (panier_count : Int)
      (total_panier : Int)
  deriving Repr, DecidableEq

/-- The `.ligne-total` cell update inside `submitQuantiteForm`: runs
only when the form's row was found and `data.total_ligne` is defined. -/
def rowTotalUpdate (ref : Nat) (row : Option Row) (total_ligne : Option Int)
    (dom : Dom) : Dom :=
  match row, total_ligne with
  | some _, some t =>
      { dom with rows := dom.rows.map fun r =>
          if r.reference = ref then { r with totalText := fmtEuro t } else r }
  | _, _ => dom

/-- The `data.success` branch of `submitQuantiteForm`: update the
row's total cell, badge, cart total and article count; if the row's
quantity input reads `≤ 0` remove the row, and if the server-reported
count is 0 reload the page. -/
def submitQuantiteSuccess (ref : Nat) (total_ligne : Option Int)
    (panier_count total_panier : Int) (dom : Dom) : Dom :=
  let row := dom.rows.find? fun r => r.reference = ref
  let dom4 := updateNombreArticles panier_count
    (updatePanierTotal total_panier
      (updatePanierBadge panier_count (rowTotalUpdate ref row total_ligne dom)))
  match row with
  | some r =>
      match r.qty with
      | some q =>
          if q ≤ 0 then
            let dom5 := { dom4 with
              rows := dom4.rows.eraseP fun r2 => r2.reference = ref }
            if panier_count = 0 then { dom5 with reloaded := true } else dom5
          else dom4
      | none => dom4
  | none => dom4

/-- `submitQuantiteForm` (`panier.js`, lines 540-578) for the form of
row `ref`.  The `catch` branch only logs to the console; a
`success:false` body does nothing. -/
def submitQuantiteForm (ref : Nat) (resp : QResp) (dom : Dom) : Dom :=
  match resp with
  | .fail => dom
  | .ok success total_ligne panier_count total_panier =>
      if success then submitQuantiteSuccess ref total_ligne panier_count total_panier dom
      else dom

/-- Response shape of the add-to-cart and row-removal endpoints. -/
structure AddData where
  success : Bool
  message : String
  panier_count : Int
  total_panier : Int
  lignes_panier : Option (List Ligne)
  deriving Repr, DecidableEq

/-- A decoded response, or a transport failure caught by `catch`. -/
inductive AddResp where
  | fail
  | ok (d : AddData)
  deriving Repr, DecidableEq

/-- State of the add-to-cart submit button. -/
structure BtnState where
  loading : Bool
  disabled : Bool
  deriving Repr, DecidableEq

/-- The `.ajouter-panier-form` submit handler (`panier.js`, lines
381-429), from the moment the button was set to its loading state.
Every path restores the button; the badge and recap change only on
`success`, and every outcome pushes a notification. -/
def ajouterPanier (resp : AddResp) (dom : Dom) : BtnState × Dom :=
  match resp with
  | .fail => (⟨false, false⟩, pushNotification "Une erreur est survenue" "danger" dom)
  | .ok d =>
      if d.success then
        let dom1 := updatePanierBadge d.panier_count dom
        let dom2 :=
          match d.lignes_panier with
          | some lignes => updateRecapPanier lignes d.total_panier dom1
          | none => dom1
        (⟨false, false⟩, pushNotification d.message "success" dom2)
      else
        (⟨false, false⟩, pushNotification d.message "warning" dom)

/-- The `.supprimer-ligne-form` submit handler (`panier.js`, lines
468-512): a declined confirm dialog aborts before any request; the
`catch` branch notifies; a `success:false` body does nothing. -/
def supprimerLigne (confirmed : Bool) (ref : Nat) (resp : AddResp) (dom : Dom) : Dom :=
  if !confirmed then dom
  else
    match resp with
    | .fail => pushNotification "Une erreur est survenue" "danger" dom
    | .ok d =>
        if d.success then
          let dom1 := { dom with rows := dom.rows.eraseP fun r => r.reference = ref }
          let dom2 := updatePanierBadge d.panier_count dom1
          let dom3 := updatePanierTotal d.total_panier dom2
          let dom4 := updateNombreArticles d.panier_count dom3
          let dom5 :=
            match d.lignes_panier with
            | some lignes => updateRecapPanier lignes d.total_panier dom4
            | none => dom4
          let dom6 := pushNotification d.message "success" dom5
          if d.panier_count = 0 then { dom6 with reloaded := true } else dom6
        else dom

/-- The `.supprimer-recap-form` submit handler (`panier.js`, lines
740-785). -/
def supprimerRecap (ref : Nat) (resp : AddResp) (dom : Dom) : Dom :=
  match resp with
  | .fail => pushNotification "Une erreur est survenue" "danger" dom
  | .ok d =>
      if d.success then
        let dom1 := updatePanierBadge d.panier_count dom
        let dom2 :=
          if d.panier_count = 0 then updateRecapPanier [] 0 dom1
          else
            match dom1.recap with
            | some (.liste lignes _) =>
                { dom1 with recap := some (.liste
                    (lignes.eraseP fun l => l.reference = ref) d.total_panier) }
            | _ => dom1
        pushNotification d.message "success" dom2
      else
        pushNotification (if d.message = "" then "Une erreur est survenue" else d.message)
          "danger" dom

/-- The visible page state: everything the scripts display, i.e. every
`Dom` field except the notification log. -/
def Dom.visibleState (dom : Dom) :
    Option String × Bool × List Row × Option String × Option String ×
      Option RecapView × Bool :=
  (dom.badge, dom.panierLink, dom.rows, dom.panierTotal, dom.nbArticles,
    dom.recap, dom.reloaded)

/-! ## Order page DOM (commander.js) -/

/-- One `.quantite-commande-input` with its product line. -/
structure CmdInput where
  reference : Nat
  /-- `data-prix`, in cents -/
  prix : Int
  /-- current input value -/
  value : Int
  /-- text of the line's `.sous-total-ligne` cell -/
  sousTotal : String
  deriving Repr, DecidableEq

/-- The order-page state touched by `commander.js`. -/
structure CmdDom where
  inputs : List CmdInput
  /-- text of `#total-commande` -/
  totalCommande : String
  /-- text of `#total-quantite` -/
  totalQuantite : String
  /-- text of `#panier-badge`; `none` = absent -/
  badge : Option String
  /-- an `a[href*="panier"]` anchor exists -/
  panierLink : Bool
  deriving Repr, DecidableEq

/-- `calculerTotal` (`commander.js`, lines 353-363). -/
def calculerTotal (s : CmdDom) : CmdDom :=
  let totalPrix := (s.inputs.map fun i => i.prix * i.value).sum
  let totalQuantite := (s.inputs.map fun i => i.value).sum
  { s with
    totalCommande := fmtEuro totalPrix
    totalQuantite := toString totalQuantite }

/-- The badge block of `syncPanier`'s response handler
(`commander.js`, lines 304-320): update or remove the badge, creating
it on the cart anchor when the count is positive, the badge is absent
and the anchor exists. -/
def syncBadgeUpdate (count : Int) (s : CmdDom) : CmdDom :=
  if count > 0 then
    match s.badge with
    | some _ => { s with badge := some (toString count) }
    | none =>
        if s.panierLink then { s with badge := some (toString count) } else s
  else
    match s.badge with
    | some _ => { s with badge := none }
    | none => s

/-- Response of the quantity-sync POST; `none` is a transport failure,
which `syncPanier` does not catch (no `.catch` on the chain), so
nothing at all runs. -/
structure SyncData where
  success : Bool
  panier_count : Int
  deriving Repr, DecidableEq

/-- The response handler inside `syncPanier` (`commander.js`, lines
301-322): only a `success` response touches the page, and it only
touches the badge. -/
def syncPanierResponse (resp : Option SyncData) (s : CmdDom) : CmdDom :=
  match resp with
  | none => s
  | some d => if d.success then syncBadgeUpdate d.panier_count s else s

/-- The `#vider-panier-btn` click handler (`commander.js`, lines
383-405); `none` is a transport failure, uncaught (no `.catch`). -/
def viderPanier (resp : Option SyncData) (s : CmdDom) : CmdDom :=
  match resp with
  | none => s
  | some d =>
      if d.success then
        let s1 := { s with inputs := s.inputs.map fun i =>
            { i with value := 0, sousTotal := "0.00 €" } }
        let s2 := calculerTotal s1
        match s2.badge with
        | some _ => { s2 with badge := none }
        | none => s2
      else s

/-! ## Theorems about the cart handlers -/

theorem updatePanierBadge_rows (c : Int) (dom : Dom) :
    (updatePanierBadge c dom).rows = dom.rows := by
  unfold updatePanierBadge
  cases dom.badge <;> split_ifs <;> rfl

theorem updatePanierTotal_rows (t : Int) (dom : Dom) :
    (updatePanierTotal t dom).rows = dom.rows := by
  unfold updatePanierTotal
  cases dom.panierTotal <;> rfl

theorem updateNombreArticles_rows (c : Int) (dom : Dom) :
    (updateNombreArticles c dom).rows = dom.rows := by
  unfold updateNombreArticles
  cases dom.nbArticles <;> rfl

theorem updatePanierBadge_reloaded (c : Int) (dom : Dom) :
    (updatePanierBadge c dom).reloaded = dom.reloaded := by
  unfold updatePanierBadge
  cases dom.badge <;> split_ifs <;> rfl

theorem updatePanierTotal_reloaded (t : Int) (dom : Dom) :
    (updatePanierTotal t dom).reloaded = dom.reloaded := by
  unfold updatePanierTotal
  cases dom.panierTotal <;> rfl

theorem updateNombreArticles_reloaded (c : Int) (dom : Dom) :
    (updateNombreArticles c dom).reloaded = dom.reloaded := by
  unfold updateNombreArticles
  cases dom.nbArticles <;> rfl

/-- C3 counterexample: a badge update with item count 1 on a page where
the badge is absent and no `a[href*="panier"]` anchor exists leaves the
badge absent, although 1 ≠ 0 — the claim's unconditional "absent iff
n = 0" fails because on-demand creation requires the anchor. -/
theorem badge_absent_with_positive_count :
    (updatePanierBadge 1 ⟨none, false, [], none, none, none, [], false⟩).badge
        = none ∧ (1 : Int) ≠ 0 := by
  exact ⟨rfl, by decide⟩

/-- C3 (amended): after a cart-badge update with item count `n`,
provided the badge already exists or the navigation anchor it attaches
to exists, the badge is absent from the DOM iff `n = 0`, and when
`n > 0` its text is exactly `n` (the badge being created on demand when
absent).  This holds both for `updatePanierBadge` in `panier.js` and
for the badge block of `syncPanier` in `commander.js`. -/
theorem badge_absent_iff_count_zero (n : Int) (dom : Dom) (s : CmdDom)
    (hn : 0 ≤ n)
    (hdom : dom.badge ≠ none ∨ dom.panierLink = true)
    (hs : s.badge ≠ none ∨ s.panierLink = true) :
    ((updatePanierBadge n dom).badge = none ↔ n = 0) ∧
      (0 < n → (updatePanierBadge n dom).badge = some (toString n)) ∧
      ((syncBadgeUpdate n s).badge = none ↔ n = 0) ∧
      (0 < n → (syncBadgeUpdate n s).badge = some (toString n)) := by
  refine ⟨?_, ?_, ?_, ?_⟩
  · cases hb : dom.badge with
    | some b =>
      simp only [updatePanierBadge, hb]
      split_ifs with hpos
      · have hne : ¬n = 0 := by omega
        simp [hne]
      · have heq : n = 0 := by omega
        simp [heq]
    | none =>
      rcases hdom with h | h
      · exact absurd hb h
      · simp only [updatePanierBadge, hb, h, if_true]
        split_ifs with hpos
        · have hne : ¬n = 0 := by omega
          simp [hne]
        · have heq : n = 0 := by omega
          simp [hb, heq]
  · intro hpos
    cases hb : dom.badge with
    | some b => simp only [updatePanierBadge, hb, if_pos hpos]
    | none =>
      rcases hdom with h | h
      · exact absurd hb h
      · simp only [updatePanierBadge, hb, h, if_true, if_pos hpos]
  · cases hb : s.badge with
    | some b =>
      simp only [syncBadgeUpdate, hb]
      split_ifs with hpos
      · have hne : ¬n = 0 := by omega
        simp [hne]
      · have heq : n = 0 := by omega
        simp [heq]
    | none =>
      rcases hs with h | h
      · exact absurd hb h
      · simp only [syncBadgeUpdate, hb, h, if_true]
        split_ifs with hpos
        · have hne : ¬n = 0 := by omega
          simp [hne]
        · have heq : n = 0 := by omega
          simp [hb, heq]
  · intro hpos
    cases hb : s.badge with
    | some b => simp only [syncBadgeUpdate, hb, if_pos hpos]
    | none =>
      rcases hs with h | h
      · exact absurd hb h
      · simp only [syncBadgeUpdate, hb, h, if_true, if_pos hpos]

/-- Witness for the amended C3 at count 2 on pages that have the
navigation anchor. -/
theorem badge_absent_iff_count_zero_witness :
    (updatePanierBadge (2 : Int)
        ⟨none, true, [], none, none, none, [], false⟩).badge
      = some (toString (2 : Int)) ∧
      ((syncBadgeUpdate (2 : Int) ⟨[], "", "", none, true⟩).badge = none ↔
        (2 : Int) = 0) := by
  have h := badge_absent_iff_count_zero 2
    ⟨none, true, [], none, none, none, [], false⟩ ⟨[], "", "", none, true⟩
    (by norm_num) (Or.inr rfl) (Or.inr rfl)
  exact ⟨h.2.1 (by norm_num), h.2.2.1⟩

/-- C2 counterexample: a transport failure of the quantity-change
operation (network error, non-2xx, malformed body — all landing in the
`catch` of `submitQuantiteForm`, which only calls `console.error`)
leaves the page exactly as it was and pushes nothing to the
Notification Surface: starting from an empty notification log, the log
is still empty, refuting "produces a user-visible message via the
Notification Surface" for this cart operation. -/
theorem quantity_change_failure_is_silent :
    submitQuantiteForm 1 QResp.fail
        ⟨some "2", true, [⟨1, "20.00 €", some 2⟩], some "20.00 €",
          some "2", none, [], false⟩
      = ⟨some "2", true, [⟨1, "20.00 €", some 2⟩], some "20.00 €",
          some "2", none, [], false⟩ ∧
      (submitQuantiteForm 1 QResp.fail
          ⟨some "2", true, [⟨1, "20.00 €", some 2⟩], some "20.00 €",
            some "2", none, [], false⟩).notifs = [] := by
  exact ⟨rfl, rfl⟩

/-- C2 (amended): for every cart operation, a transport failure or a
server-reported `success:false` never changes the displayed state —
the display changes only on an explicit success flag — and the
add-to-cart handler restores its submit button; but only some failure
paths produce a user-visible message: add-to-cart failures, recap
removal failures and cart-page removal transport failures notify,
while quantity-change failures, quantity-sync failures, clear-cart
failures and cart-page removal logical failures are silent. -/
theorem cart_failures_no_display_change :
    (∀ (ref : Nat) (dom : Dom), submitQuantiteForm ref .fail dom = dom) ∧
      (∀ (ref : Nat) (tl : Option Int) (pc tp : Int) (dom : Dom),
        submitQuantiteForm ref (.ok false tl pc tp) dom = dom) ∧
      (∀ s : CmdDom, syncPanierResponse none s = s) ∧
      (∀ (d : SyncData) (s : CmdDom), d.success = false →
        syncPanierResponse (some d) s = s) ∧
      (∀ s : CmdDom, viderPanier none s = s) ∧
      (∀ (d : SyncData) (s : CmdDom), d.success = false →
        viderPanier (some d) s = s) ∧
      (∀ dom : Dom,
        (ajouterPanier .fail dom).1 = ⟨false, false⟩ ∧
          (ajouterPanier .fail dom).2.visibleState = dom.visibleState ∧
          (ajouterPanier .fail dom).2.notifs
            = dom.notifs ++ [("Une erreur est survenue", "danger")]) ∧
      (∀ (d : AddData) (dom : Dom), d.success = false →
        (ajouterPanier (.ok d) dom).1 = ⟨false, false⟩ ∧
          (ajouterPanier (.ok d) dom).2.visibleState = dom.visibleState ∧
          (ajouterPanier (.ok d) dom).2.notifs
            = dom.notifs ++ [(d.message, "warning")]) ∧
      (∀ (ref : Nat) (dom : Dom),
        (supprimerLigne true ref .fail dom).visibleState = dom.visibleState ∧
          (supprimerLigne true ref .fail dom).notifs
            = dom.notifs ++ [("Une erreur est survenue", "danger")]) ∧
      (∀ (ref : Nat) (d : AddData) (dom : Dom), d.success = false →
        supprimerLigne true ref (.ok d) dom = dom) ∧
      (∀ (ref : Nat) (dom : Dom),
        (supprimerRecap ref .fail dom).visibleState = dom.visibleState ∧
          (supprimerRecap ref .fail dom).notifs
            = dom.notifs ++ [("Une erreur est survenue", "danger")]) ∧
      (∀ (ref : Nat) (d : AddData) (dom : Dom), d.success = false →
        (supprimerRecap ref (.ok d) dom).visibleState = dom.visibleState ∧
          (supprimerRecap ref (.ok d) dom).notifs
            = dom.notifs
                ++ [(if d.message = "" then "Une erreur est survenue" else d.message,
                    "danger")]) := by
  refine ⟨fun ref dom => rfl, ?_, fun s => rfl, ?_, fun s => rfl, ?_, ?_, ?_, ?_, ?_, ?_, ?_⟩
  · intro ref tl pc tp dom
    simp [submitQuantiteForm]
  · intro d s h
    simp [syncPanierResponse, h]
  · intro d s h
    simp [viderPanier, h]
  · intro dom
    exact ⟨rfl, rfl, rfl⟩
  · intro d dom h
    refine ⟨?_, ?_, ?_⟩ <;> simp [ajouterPanier, h, pushNotification, Dom.visibleState]
  · intro ref dom
    exact ⟨rfl, rfl⟩
  · intro ref d dom h
    simp [supprimerLigne, h]
  · intro ref dom
    exact ⟨rfl, rfl⟩
  · intro ref d dom h
    refine ⟨?_, ?_⟩ <;> simp [supprimerRecap, h, pushNotification, Dom.visibleState]

/-- Witness for the amended C2 at concrete inputs, exercising the
hypotheses `success = false` for the quantity-change, sync, clear,
add and removal operations. -/
theorem cart_failures_no_display_change_witness :
    submitQuantiteForm 3 (.ok false none 2 500)
        ⟨none, true, [], none, none, none, [], false⟩
      = ⟨none, true, [], none, none, none, [], false⟩ ∧
      syncPanierResponse (some ⟨false, 4⟩) ⟨[], "", "", none, true⟩
        = ⟨[], "", "", none, true⟩ ∧
      viderPanier (some ⟨false, 4⟩) ⟨[], "", "", none, true⟩
        = ⟨[], "", "", none, true⟩ ∧
      (ajouterPanier (.ok ⟨false, "Stock insuffisant", 2, 500, none⟩)
          ⟨none, true, [], none, none, none, [], false⟩).2.notifs
        = [("Stock insuffisant", "warning")] ∧
      supprimerLigne true 3 (.ok ⟨false, "err", 2, 500, none⟩)
          ⟨none, true, [], none, none, none, [], false⟩
        = ⟨none, true, [], none, none, none, [], false⟩ ∧
      (supprimerRecap 3 (.ok ⟨false, "", 2, 500, none⟩)
          ⟨none, true, [], none, none, none, [], false⟩).notifs
        = [("Une erreur est survenue", "danger")] := by
  have h := cart_failures_no_display_change
  refine ⟨h.2.1 3 none 2 500 _, h.2.2.2.1 ⟨false, 4⟩ _ rfl,
    h.2.2.2.2.2.1 ⟨false, 4⟩ _ rfl, ?_,
    h.2.2.2.2.2.2.2.2.2.1 3 ⟨false, "err", 2, 500, none⟩ _ rfl, ?_⟩
  · have h8 := h.2.2.2.2.2.2.2.1 ⟨false, "Stock insuffisant", 2, 500, none⟩
      ⟨none, true, [], none, none, none, [], false⟩ rfl
    simpa using h8.2.2
  · have h12 := h.2.2.2.2.2.2.2.2.2.2.2 3 ⟨false, "", 2, 500, none⟩
      ⟨none, true, [], none, none, none, [], false⟩ rfl
    simpa using h12.2

theorem find?_eraseP_of_nodup (ref : Nat) :
    ∀ l : List Row, (l.map Row.reference).Nodup →
      (l.eraseP fun r => r.reference = ref).find? (fun r => r.reference = ref)
        = none := by
  intro l
  induction l with
  | nil => intro _; rfl
  | cons a rest ih =>
    intro hnd
    simp only [List.map_cons, List.nodup_cons] at hnd
    by_cases ha : a.reference = ref
    · rw [List.eraseP_cons_of_pos (by simp [ha])]
      rw [List.find?_eq_none]
      intro x hx
      simp only [decide_eq_true_eq]
      intro hxref
      exact hnd.1 (by rw [ha, ← hxref]; exact List.mem_map_of_mem Row.reference hx)
    · rw [List.eraseP_cons_of_neg (by simp [ha])]
      rw [List.find?_cons_of_neg _ (by simp [ha])]
      exact ih hnd.2

theorem reference_map_totalText (ref : Nat) (t : Int) (l : List Row) :
    (l.map fun r =>
        if r.reference = ref then { r with totalText := fmtEuro t } else r).map
        Row.reference
      = l.map Row.reference := by
  rw [List.map_map]
  apply List.map_congr_left
  intro r _
  by_cases h : r.reference = ref <;> simp [h]

/-- C5: after a successful quantity-change response on a cart whose
rows have pairwise distinct references, if the quantity input of the
edited line reads `≤ 0` then that line's row is no longer found in the
table, and if the server-reported item count is 0 the page reloads. -/
theorem quantity_zero_removes_row (ref : Nat) (tl : Option Int) (pc tp : Int)
    (dom : Dom) (r : Row) (q : Int)
    (hnd : (dom.rows.map Row.reference).Nodup)
    (hfind : (dom.rows.find? fun x => x.reference = ref) = some r)
    (hq : r.qty = some q) (hq0 : q ≤ 0) :
    ((submitQuantiteForm ref (.ok true tl pc tp) dom).rows.find?
        (fun x => x.reference = ref)) = none ∧
      (pc = 0 → (submitQuantiteForm ref (.ok true tl pc tp) dom).reloaded = true) := by
  have hform : submitQuantiteForm ref (.ok true tl pc tp) dom
      = submitQuantiteSuccess ref tl pc tp dom := rfl
  have hsucc : submitQuantiteSuccess ref tl pc tp dom
      = (let dom4 := updateNombreArticles pc (updatePanierTotal tp
            (updatePanierBadge pc (rowTotalUpdate ref (some r) tl dom)))
        let dom5 := { dom4 with
          rows := dom4.rows.eraseP fun r2 => r2.reference = ref }
        if pc = 0 then { dom5 with reloaded := true } else dom5) := by
    rw [submitQuantiteSuccess]
    rw [hfind]
    simp only [hq]
    rw [if_pos hq0]
  rw [hform, hsucc]
  have hrows1 : (rowTotalUpdate ref (some r) tl dom).rows.map Row.reference
      = dom.rows.map Row.reference := by
    cases tl with
    | none => rfl
    | some t => exact reference_map_totalText ref t dom.rows
  have hrows4 : (updateNombreArticles pc (updatePanierTotal tp
        (updatePanierBadge pc (rowTotalUpdate ref (some r) tl dom)))).rows
      = (rowTotalUpdate ref (some r) tl dom).rows := by
    rw [updateNombreArticles_rows, updatePanierTotal_rows, updatePanierBadge_rows]
  have hnone : ((updateNombreArticles pc (updatePanierTotal tp
        (updatePanierBadge pc (rowTotalUpdate ref (some r) tl dom)))).rows.eraseP
          (fun r2 => r2.reference = ref)).find? (fun x => x.reference = ref)
      = none := by
    rw [hrows4]
    apply find?_eraseP_of_nodup
    rw [hrows1]; exact hnd
  constructor
  · by_cases hpc : pc = 0
    · rw [if_pos hpc]
      exact hnone
    · rw [if_neg hpc]
      exact hnone
  · intro hpc
    rw [if_pos hpc]

/-- Witness for C5 on a one-row cart whose quantity input reads 0 and
whose response reports an empty cart. -/
theorem quantity_zero_removes_row_witness :
    ((submitQuantiteForm 1 (.ok true (some 0) 0 0)
        ⟨some "1", true, [⟨1, "10.00 €", some 0⟩], some "10.00 €",
          some "1", none, [], false⟩).rows.find?
        (fun x => x.reference = 1)) = none ∧
      (submitQuantiteForm 1 (.ok true (some 0) 0 0)
        ⟨some "1", true, [⟨1, "10.00 €", some 0⟩], some "10.00 €",
          some "1", none, [], false⟩).reloaded = true := by
  have h := quantity_zero_removes_row 1 (some 0) 0 0
    ⟨some "1", true, [⟨1, "10.00 €", some 0⟩], some "10.00 €",
      some "1", none, [], false⟩
    ⟨1, "10.00 €", some 0⟩ 0 (by decide) (by decide) rfl (by decide)
  exact ⟨h.1, h.2 rfl⟩

/-! ## Quantity-input change handler with stock clamping
(panier.js, lines 437-461) -/

/-- The body of the debounced `change` handler before the submit: read
`data-stock` (`none` = attribute absent, i.e. `Infinity`), and if the
entered quantity `v` exceeds the stock maximum, write the maximum back
into the input and show a warning notification. -/
def quantiteClampStep (ref : Nat) (stock : Option Int) (v : Int) (dom : Dom) : Dom :=
  match stock with
  | none => dom
  | some m =>
      if v > m then
        pushNotification ("Quantité maximale disponible : " ++ toString m) "warning"
          { dom with rows := dom.rows.map fun r =>
              if r.reference = ref then { r with qty := some m } else r }
      else dom

/-- The whole debounced `change` handler: clamp, then submit the form
(the submitted `FormData` reads the input's — possibly clamped —
value). -/
def quantiteInputChange (ref : Nat) (stock : Option Int) (v : Int) (resp : QResp)
    (dom : Dom) : Dom :=
  submitQuantiteForm ref resp (quantiteClampStep ref stock v dom)

/-- Value of the quantity input of row `ref`. -/
def rowQty (ref : Nat) (dom : Dom) : Option Int :=
  (dom.rows.find? fun r => r.reference = ref).bind Row.qty

theorem find?_map_qty (ref : Nat) (m : Int) (l : List Row) :
    (l.map fun r => if r.reference = ref then { r with qty := some m } else r).find?
        (fun x => x.reference = ref)
      = (l.find? fun x => x.reference = ref).map
          fun r => if r.reference = ref then { r with qty := some m } else r := by
  rw [List.find?_map]
  have hp : ((fun x : Row => decide (x.reference = ref)) ∘ fun r =>
      if r.reference = ref then { r with qty := some m } else r)
      = fun x : Row => decide (x.reference = ref) := by
    funext x
    by_cases h : x.reference = ref <;> simp [Function.comp, h]
  rw [hp]

/-- C10: on the cart page, when the quantity debounce window elapses
for an input whose row carries a `data-stock` value `m` and whose input
reads `v`: the input value at submission time never exceeds `m`; if
`v > m` the input has been clamped to exactly `m` and a warning
notification has been shown; and the submit runs on the clamped page
state. -/
theorem stock_clamp_before_submit (ref : Nat) (m v : Int) (resp : QResp)
    (dom : Dom) (r : Row)
    (hfind : (dom.rows.find? fun x => x.reference = ref) = some r)
    (hq : r.qty = some v) :
    (∀ q, rowQty ref (quantiteClampStep ref (some m) v dom) = some q → q ≤ m) ∧
      (v > m →
        rowQty ref (quantiteClampStep ref (some m) v dom) = some m ∧
          (quantiteClampStep ref (some m) v dom).notifs
            = dom.notifs
                ++ [("Quantité maximale disponible : " ++ toString m, "warning")]) ∧
      quantiteInputChange ref (some m) v resp dom
        = submitQuantiteForm ref resp (quantiteClampStep ref (some m) v dom) := by
  have hrfind : r.reference = ref := by
    have := List.find?_some hfind
    simpa using this
  have hclamped : v > m →
      rowQty ref (quantiteClampStep ref (some m) v dom) = some m := by
    intro hvm
    simp only [quantiteClampStep, if_pos hvm, rowQty, pushNotification]
    rw [find?_map_qty, hfind]
    simp [hrfind]
  refine ⟨?_, fun hvm => ⟨hclamped hvm, ?_⟩, rfl⟩
  · intro q hqq
    by_cases hvm : v > m
    · rw [hclamped hvm] at hqq
      have hq2 : m = q := Option.some.inj hqq
      omega
    · simp [quantiteClampStep, if_neg hvm, rowQty, hfind, hq] at hqq
      omega
  · simp [quantiteClampStep, if_pos hvm, pushNotification]

/-- Witness for C10: one row with `data-stock` 4 and entered value 10
is clamped to 4 with a warning pushed. -/
theorem stock_clamp_before_submit_witness :
    rowQty 5 (quantiteClampStep 5 (some 4) 10
        ⟨none, true, [⟨5, "0.00 €", some 10⟩], none, none, none, [], false⟩)
      = some 4 ∧
      (quantiteClampStep 5 (some 4) 10
        ⟨none, true, [⟨5, "0.00 €", some 10⟩], none, none, none, [], false⟩).notifs
      = [("Quantité maximale disponible : " ++ toString (4 : Int), "warning")] := by
  have h := stock_clamp_before_submit 5 4 10 QResp.fail
    ⟨none, true, [⟨5, "0.00 €", some 10⟩], none, none, none, [], false⟩
    ⟨5, "0.00 €", some 10⟩ (by decide) rfl
  have h2 := h.2.1 (by norm_num)
  exact ⟨h2.1, by simpa using h2.2⟩

/-! ## Debounced input channel

Model of the per-key debounce used by `syncPanier` in `commander.js`
(`const syncTimers = {}; clearTimeout(syncTimers[reference]);
syncTimers[reference] = setTimeout(..., 400)`), by the quantity inputs
in `panier.js` and by the search box in `client-search.js` (both a
single-key instance of the same pattern).  A pending `setTimeout` is a
timer with an absolute deadline; an edit first lets every already-due
timer fire, then cancels the pending timer of its key and schedules a
new one at `time + W`. -/

namespace Debounce

/-- An edit event: at `time`, the input of `key` reads `val`. -/
structure Edit where
  time : Nat
  key : Nat
  val : Int
  deriving Repr, DecidableEq

/-- A pending `setTimeout`, keyed like `syncTimers[reference]`. -/
structure Timer where
  key : Nat
  deadline : Nat
  val : Int
  deriving Repr, DecidableEq

/-- The network calls made when the given timers fire. -/
def fireAll (s : List Timer) : List (Nat × Int) :=
  s.map fun t => (t.key, t.val)

/-- State change caused by one edit: timers already due have fired and
are gone, the pending timer of the edit's key (if any) is cancelled by
`clearTimeout`, and a fresh timer for the latest value is scheduled
`W` ms ahead by `setTimeout`. -/
def stepEdit (W : Nat) (s : List Timer) (e : Edit) : List Timer :=
  ((s.filter fun t => decide (e.time < t.deadline)).filter
      fun t => decide (t.key ≠ e.key))
    ++ [⟨e.key, e.time + W, e.val⟩]

/-- The network calls fired while processing a time-ordered edit
sequence from timer state `s`, including the timers still pending when
the sequence ends. -/
def run (W : Nat) : List Edit → List Timer → List (Nat × Int)
  | [], s => fireAll s
  | e :: es, s =>
      fireAll (s.filter fun t => decide (t.deadline ≤ e.time))
        ++ run W es (stepEdit W s e)

/-- Consecutive edits of a burst: later, but within the window. -/
def burstRel (W : Nat) (a b : Edit) : Prop :=
  a.time < b.time ∧ b.time < a.time + W

/-- Consecutive edits spaced more than the window apart. -/
def spacedRel (W : Nat) (a b : Edit) : Prop :=
  a.time + W < b.time

instance (W : Nat) (a b : Edit) : Decidable (burstRel W a b) :=
  inferInstanceAs (Decidable (a.time < b.time ∧ b.time < a.time + W))

instance (W : Nat) (a b : Edit) : Decidable (spacedRel W a b) :=
  inferInstanceAs (Decidable (a.time + W < b.time))

/-- The value of the last edit of a burst (`v` if there is none). -/
def lastVal (v : Int) : List Edit → Int
  | [] => v
  | e :: es => lastVal e.val es

/-- Keys of the pending timers. -/
def timerKeys (s : List Timer) : List Nat :=
  s.map Timer.key

theorem stepEdit_keyNodup (W : Nat) (s : List Timer) (e : Edit)
    (h : (timerKeys s).Nodup) : (timerKeys (stepEdit W s e)).Nodup := by
  have hsub : ∀ p q : Timer → Bool,
      List.Sublist (timerKeys ((s.filter p).filter q)) (timerKeys s) := by
    intro p q
    exact (((s.filter p).filter_sublist).trans (s.filter_sublist)).map Timer.key
  simp only [stepEdit, timerKeys, List.map_append, List.map_cons, List.map_nil]
  rw [List.nodup_append]
  refine ⟨(hsub _ _).nodup h, List.nodup_singleton _, ?_⟩
  intro a ha hb
  simp only [List.mem_singleton] at hb
  subst hb
  simp only [List.mem_map] at ha
  rcases ha with ⟨t, ht, hta⟩
  have h2 := (List.mem_filter.mp ht).2
  simp only [decide_eq_true_eq] at h2
  exact h2 hta

theorem run_burst_aux (W k : Nat) :
    ∀ (es : List Edit) (d : Nat) (v : Int),
      (∀ e ∈ es, e.key = k) → List.Chain' (burstRel W) es →
      (∀ e, es.head? = some e → e.time < d) →
      run W es [⟨k, d, v⟩] = [(k, lastVal v es)] := by
  intro es
  induction es with
  | nil => intro d v _ _ _; rfl
  | cons e es ih =>
    intro d v hk hch hd
    have hde : e.time < d := hd e rfl
    have he : e.key = k := hk e (List.mem_cons_self e es)
    rw [run]
    have hfired : ([⟨k, d, v⟩] : List Timer).filter
        (fun t => decide (t.deadline ≤ e.time)) = [] := by
      simp only [List.filter_singleton]
      rw [decide_eq_false (by omega : ¬d ≤ e.time)]
      rfl
    have hstep : stepEdit W [⟨k, d, v⟩] e = [⟨k, e.time + W, e.val⟩] := by
      simp only [stepEdit, List.filter_singleton]
      rw [decide_eq_true (by omega : e.time < d)]
      simp only [cond_true, List.filter_singleton]
      rw [decide_eq_false (by simp [he] : ¬(k ≠ e.key))]
      simp [he]
    rw [hfired, hstep]
    have hih := ih (e.time + W) e.val
      (fun x hx => hk x (List.mem_cons_of_mem e hx)) hch.tail ?_
    · rw [hih]
      rfl
    · intro x hx
      cases es with
      | nil => simp at hx
      | cons y ys =>
        simp only [List.head?_cons, Option.some_inj] at hx
        subst hx
        exact (List.chain'_cons.mp hch).1.2

theorem run_spaced_aux (W k : Nat) :
    ∀ (es : List Edit) (d : Nat) (v : Int),
      (∀ e ∈ es, e.key = k) → List.Chain' (spacedRel W) es →
      (∀ e, es.head? = some e → d ≤ e.time) →
      run W es [⟨k, d, v⟩] = (k, v) :: es.map fun e => (e.key, e.val) := by
  intro es
  induction es with
  | nil => intro d v _ _ _; rfl
  | cons e es ih =>
    intro d v hk hch hd
    have hde : d ≤ e.time := hd e rfl
    have he : e.key = k := hk e (List.mem_cons_self e es)
    rw [run]
    have hfired : ([⟨k, d, v⟩] : List Timer).filter
        (fun t => decide (t.deadline ≤ e.time)) = [⟨k, d, v⟩] := by
      simp only [List.filter_singleton]
      rw [decide_eq_true (by omega : d ≤ e.time)]
      rfl
    have hstep : stepEdit W [⟨k, d, v⟩] e = [⟨k, e.time + W, e.val⟩] := by
      simp only [stepEdit, List.filter_singleton]
      rw [decide_eq_false (by omega : ¬e.time < d)]
      simp only [cond_false, List.filter_nil, List.nil_append]
      rw [he]
    rw [hfired, hstep]
    have hih := ih (e.time + W) e.val
      (fun x hx => hk x (List.mem_cons_of_mem e hx)) hch.tail ?_
    · rw [hih]
      simp [fireAll, he]
    · intro x hx
      cases es with
      | nil => simp at hx
      | cons y ys =>
        simp only [List.head?_cons, Option.some_inj] at hx
        subst hx
        exact le_of_lt (List.chain'_cons.mp hch).1

/-- C1: for the per-key debounce channel with window `W`:
(1) whatever the edit sequence, every reachable timer state holds at
most one pending timer per key — a new edit cancels and replaces the
pending timer of its key;
(2) a non-empty burst of same-key edits whose consecutive gaps are
smaller than `W` produces exactly one downstream call, carrying the
value of the last edit of the burst;
(3) same-key edits spaced more than `W` apart each produce their own
call, carrying their own value. -/
theorem debounce_per_key (W k : Nat) :
    (∀ (es : List Edit) (s : List Timer),
        s ∈ List.scanl (stepEdit W) [] es → (timerKeys s).Nodup) ∧
      (∀ es : List Edit, es ≠ [] → (∀ e ∈ es, e.key = k) →
        List.Chain' (burstRel W) es →
        run W es [] = [(k, lastVal 0 es)]) ∧
      (∀ es : List Edit, (∀ e ∈ es, e.key = k) →
        List.Chain' (spacedRel W) es →
        run W es [] = es.map fun e => (e.key, e.val)) := by
  refine ⟨?_, ?_, ?_⟩
  · intro es
    suffices h : ∀ s0 : List Timer, (timerKeys s0).Nodup →
        ∀ s ∈ List.scanl (stepEdit W) s0 es, (timerKeys s).Nodup by
      exact h [] (by simp [timerKeys])
    induction es with
    | nil =>
      intro s0 h0 s hs
      simp at hs
      simpa [hs] using h0
    | cons e es ih =>
      intro s0 h0 s hs
      rw [List.scanl_cons] at hs
      rcases List.mem_cons.mp hs with h1 | h2
      · simpa [h1] using h0
      · exact ih (stepEdit W s0 e) (stepEdit_keyNodup W s0 e h0) s h2
  · intro es hne hk hch
    cases es with
    | nil => exact absurd rfl hne
    | cons e es =>
      have he : e.key = k := hk e (List.mem_cons_self e es)
      rw [run]
      have hstep : stepEdit W [] e = [⟨k, e.time + W, e.val⟩] := by
        simp only [stepEdit, List.filter_nil, List.nil_append]
        rw [he]
      rw [hstep]
      have hih := run_burst_aux W k es (e.time + W) e.val
        (fun x hx => hk x (List.mem_cons_of_mem e hx)) hch.tail ?_
      · rw [hih]
        rfl
      · intro x hx
        cases es with
        | nil => simp at hx
        | cons y ys =>
          simp only [List.head?_cons, Option.some_inj] at hx
          subst hx
          exact (List.chain'_cons.mp hch).1.2
  · intro es hk hch
    cases es with
    | nil => rfl
    | cons e es =>
      have he : e.key = k := hk e (List.mem_cons_self e es)
      rw [run]
      have hstep : stepEdit W [] e = [⟨k, e.time + W, e.val⟩] := by
        simp only [stepEdit, List.filter_nil, List.nil_append]
        rw [he]
      rw [hstep]
      have hih := run_spaced_aux W k es (e.time + W) e.val
        (fun x hx => hk x (List.mem_cons_of_mem e hx)) hch.tail ?_
      · rw [hih]
        simp [fireAll, he]
      · intro x hx
        cases es with
        | nil => simp at hx
        | cons y ys =>
          simp only [List.head?_cons, Option.some_inj] at hx
          subst hx
          exact le_of_lt (List.chain'_cons.mp hch).1

/-- Witness for C1 with window 400 ms on key 7: a burst of three edits
60 ms apart yields one call with the last value, while the same edits
spaced 500 ms apart yield three calls. -/
theorem debounce_per_key_witness :
    run 400 [⟨0, 7, 1⟩, ⟨60, 7, 2⟩, ⟨120, 7, 3⟩] [] = [(7, 3)] ∧
      run 400 [⟨0, 7, 1⟩, ⟨500, 7, 2⟩, ⟨1000, 7, 3⟩] []
        = [(7, 1), (7, 2), (7, 3)] := by
  have h := debounce_per_key 400 7
  constructor
  · have hb := h.2.1 [⟨0, 7, 1⟩, ⟨60, 7, 2⟩, ⟨120, 7, 3⟩] (by decide)
      (by decide) (by simp [List.chain'_cons, burstRel])
    simpa using hb
  · have hs := h.2.2 [⟨0, 7, 1⟩, ⟨500, 7, 2⟩, ⟨1000, 7, 3⟩]
      (by decide) (by simp [List.chain'_cons, spacedRel])
    simpa using hs

end Debounce

end Extranet
